import Mathlib

/-!
Verification of `scripts/generate-icons.py`, a build-time utility that
generates PWA icon PNG files from an optional SVG source, falling back to a
procedurally drawn placeholder icon.

The script is embedded shallowly: pure computations become Lean functions,
exceptions become `Option`/branching, and the effectful parts (filesystem,
font loading, the optional `cairosvg` backend, PIL text metrics) are
parametrized by explicit environment records whose fields record whether each
external call succeeds and what it returns.
-/

/-- Model of Python's built-in `int(s)` applied to a decimal string literal:
leading/trailing whitespace is stripped, an optional single sign is allowed,
and the remainder must be one or more ASCII digits; any other input raises
`ValueError`, modelled as `none`. -/
def pyDigits (cs : List Char) : Option Nat :=
  if cs.isEmpty then none
  else if cs.all Char.isDigit then
    some (cs.foldl (fun acc c => acc * 10 + (c.toNat - 48)) 0)
  else none

/-- Strip leading and trailing whitespace, as Python `int` does before
parsing. -/
def pyStrip (cs : List Char) : List Char :=
  ((cs.dropWhile Char.isWhitespace).reverse.dropWhile Char.isWhitespace).reverse

/-- Python `int(s)` on a string: optional sign then digits, else `ValueError`. -/
def pyInt (s : String) : Option Int :=
  match pyStrip s.toList with
  | '-' :: rest => (pyDigits rest).map (fun n => -(n : Int))
  | '+' :: rest => (pyDigits rest).map (fun n => (n : Int))
  | cs => (pyDigits cs).map (fun n => (n : Int))

/-- The content found at the SVG path: the file may be missing (`ET.parse`
raises `FileNotFoundError`), malformed as XML (`ET.parse` raises
`ParseError`), or well-formed with optional `width`/`height` attributes on
the root element (`root.get` returns the attribute string or the supplied
default). -/
inductive SvgFile where
  | malformed : SvgFile
  | wellFormed (width : Option String) (height : Option String) : SvgFile
deriving DecidableEq

/-- Embedding of `parse_svg_dimensions`.  The Python body runs inside a single
`try`: `ET.parse` (raises on a missing or malformed file), then
`int(root.get('width', '512'))`, then `int(root.get('height', '512'))`.
If any of the three raises, the bare `except` returns `(512, 512)`. -/
def parse_svg_dimensions (f : Option SvgFile) : Int × Int :=
  match f with
  | none => (512, 512)
  | some .malformed => (512, 512)
  | some (.wellFormed w h) =>
    match pyInt (w.getD "512") with
    | none => (512, 512)
    | some width =>
      match pyInt (h.getD "512") with
      | none => (512, 512)
      | some height => (width, height)

/-- The default attribute string `'512'` parses to 512. -/
theorem pyInt_default : pyInt "512" = some 512 := by decide

/-- C2: the metadata reader on `width="256" height="256"` returns (256, 256);
with both attributes absent it returns (512, 512); on a malformed (non-XML)
file it returns (512, 512) without raising (the embedding is total, so no
exception can escape). -/
theorem C2_parse_svg_dimensions_cases :
    parse_svg_dimensions (some (.wellFormed (some "256") (some "256"))) = (256, 256) ∧
    parse_svg_dimensions (some (.wellFormed none none)) = (512, 512) ∧
    parse_svg_dimensions (some .malformed) = (512, 512) := by
  refine ⟨?_, ?_, ?_⟩ <;> decide

/-- C3 counterexample: with `width="256"` parsable and `height="abc"`
unparsable, the claim predicts (256, 512), but the exception raised by
`int("abc")` aborts the whole `try` block and the reader returns (512, 512). -/
theorem C3_counterexample :
    parse_svg_dimensions (some (.wellFormed (some "256") (some "abc"))) ≠ (256, 512) := by
  decide

/-- C3 (amended): each dimension defaults independently to 512 only when the
attribute is ABSENT (the `'512'` default string supplied to `root.get`); when
an attribute is present but unparsable, the `int` call raises and the reader
returns (512, 512) for both dimensions, discarding the other attribute even
if it parsed. -/
theorem C3_amended_defaults (w : String) (n : Int) (hw : pyInt w = some n) :
    parse_svg_dimensions (some (.wellFormed (some w) none)) = (n, 512) ∧
    parse_svg_dimensions (some (.wellFormed none (some w))) = (512, n) ∧
    (∀ h : String, pyInt h = none →
      parse_svg_dimensions (some (.wellFormed (some w) (some h))) = (512, 512)) ∧
    (∀ h : String, pyInt h = none →
      parse_svg_dimensions (some (.wellFormed (some h) (some w))) = (512, 512)) := by
  refine ⟨?_, ?_, ?_, ?_⟩
  · simp [parse_svg_dimensions, hw, pyInt_default]
  · simp [parse_svg_dimensions, hw, pyInt_default]
  · intro h hh; simp [parse_svg_dimensions, hw, hh]
  · intro h hh; simp [parse_svg_dimensions, hh]

/-- Witness for C3_amended_defaults at width "256", unparsable height "abc". -/
theorem C3_amended_defaults_witness :
    parse_svg_dimensions (some (.wellFormed (some "256") none)) = (256, 512) ∧
    parse_svg_dimensions (some (.wellFormed (some "256") (some "abc"))) = (512, 512) := by
  have h := C3_amended_defaults "256" 256 (by decide)
  exact ⟨h.1, h.2.2.1 "abc" (by decide)⟩

/-- C10: the reader applies no range validation: any pair of attribute strings
that Python's `int` accepts — including "0" and "-5" — is returned verbatim,
with no clamping and no substitution of the 512 default. -/
theorem C10_no_range_validation (w h : String) (wi hi : Int)
    (hw : pyInt w = some wi) (hh : pyInt h = some hi) :
    parse_svg_dimensions (some (.wellFormed (some w) (some h))) = (wi, hi) := by
  simp [parse_svg_dimensions, hw, hh]

/-- Witness for C10 at width "0" and height "-5". -/
theorem C10_no_range_validation_witness :
    parse_svg_dimensions (some (.wellFormed (some "0") (some "-5"))) = (0, -5) :=
  C10_no_range_validation "0" "-5" 0 (-5) (by decide) (by decide)

/-- An RGBA color constant, as the 4-tuples passed to PIL drawing calls. -/
structure Color where
  r : Nat
  g : Nat
  b : Nat
  a : Nat
deriving DecidableEq

/-- A loaded font: either a truetype font identified by the path and pixel
size passed to `ImageFont.truetype`, or the PIL built-in bitmap font from
`ImageFont.load_default()`. -/
inductive Font where
  | truetype (path : String) (size : Nat) : Font
  | builtinDefault : Font
deriving DecidableEq

/-- A text bounding box as returned by PIL's `draw.textbbox`: the tuple
(left, top, right, bottom), relative to the anchor point passed in. -/
structure BBox where
  x0 : Int
  y0 : Int
  x1 : Int
  y1 : Int
deriving DecidableEq

/-- The ellipse drawn by `draw.ellipse([x0, y0, x1, y1], fill, outline,
width)`. -/
structure Ellipse where
  x0 : Nat
  y0 : Nat
  x1 : Nat
  y1 : Nat
  fill : Color
  outline : Color
  strokeWidth : Nat
deriving DecidableEq

/-- The text drawn by `draw.text((x, y), text, fill, font)`. -/
structure TextDraw where
  x : Int
  y : Int
  text : String
  fill : Color
  font : Font
deriving DecidableEq

/-- The in-memory image built by `create_fallback_icon`: dimensions and
background from `Image.new`, then one ellipse and one text draw call. -/
structure Icon where
  width : Nat
  height : Nat
  background : Color
  ellipse : Ellipse
  label : TextDraw
deriving DecidableEq

/-- Environment for `ImageFont.truetype`: given a font path and a pixel size,
either return the loaded font (`some`) or raise (`none`, covering `OSError`
for a missing font file and any other error). `ImageFont.load_default()` is
not a field because it cannot fail: it returns the bundled bitmap font. -/
structure FontEnv where
  truetype : String → Nat → Option Font

/-- Environment for PIL text metrics: `draw.textbbox((0, 0), text, font)`,
the measured bounding box of `text` rendered in `font` anchored at the
origin. -/
structure DrawEnv where
  textbbox : String → Font → BBox

/-- The bundled system font path tried first by `create_fallback_icon`. -/
def dejavu_bold : String := "/usr/share/fonts/truetype/dejavu/DejaVuSans-Bold.ttf"

/-- Embedding of the font-selection chain in `create_fallback_icon`:
`try` DejaVuSans-Bold at the fixed system path, on any error `try`
`"arial.ttf"`, on any error fall back to `ImageFont.load_default()`.
The argument is `font_size = size // 3`, computed before the first attempt. -/
def load_font (env : FontEnv) (font_size : Nat) : Font :=
  match env.truetype dejavu_bold font_size with
  | some f => f
  | none =>
    match env.truetype "arial.ttf" font_size with
    | some f => f
    | none => Font.builtinDefault

/-- The names of the three font-selection steps, for reasoning about which
steps the chain actually attempts. -/
inductive FontAttempt where
  | dejavu : FontAttempt
  | arial : FontAttempt
  | builtin : FontAttempt
deriving DecidableEq

/-- Instrumented copy of `load_font` that also records, in order, the steps
attempted. -/
def load_font_attempts (env : FontEnv) (font_size : Nat) : Font × List FontAttempt :=
  match env.truetype dejavu_bold font_size with
  | some f => (f, [.dejavu])
  | none =>
    match env.truetype "arial.ttf" font_size with
    | some f => (f, [.dejavu, .arial])
    | none => (Font.builtinDefault, [.dejavu, .arial, .builtin])

/-- Embedding of `create_fallback_icon(size, text="PC")`: a fresh RGBA image
of `(size, size)` with fully transparent background `(0, 0, 0, 0)`; an
ellipse inscribed with `margin = size // 8` on each side, fill
`(15, 23, 42, 255)`, outline `(59, 130, 246, 255)`, stroke width
`size // 16`; and the label drawn at
`x = (size - text_width) // 2, y = (size - text_height) // 2` (Python floor
division, hence `Int.fdiv`) in white, where `text_width`/`text_height` come
from the bbox measured at the origin. -/
def create_fallback_icon (env : FontEnv) (denv : DrawEnv) (size : Nat)
    (text : String := "PC") : Icon :=
  let margin := size / 8
  let ellipse : Ellipse :=
    { x0 := margin, y0 := margin, x1 := size - margin, y1 := size - margin,
      fill := ⟨15, 23, 42, 255⟩, outline := ⟨59, 130, 246, 255⟩,
      strokeWidth := size / 16 }
  let font_size := size / 3
  let font := load_font env font_size
  let bbox := denv.textbbox text font
  let text_width := bbox.x1 - bbox.x0
  let text_height := bbox.y1 - bbox.y0
  let x := Int.fdiv ((size : Int) - text_width) 2
  let y := Int.fdiv ((size : Int) - text_height) 2
  { width := size, height := size, background := ⟨0, 0, 0, 0⟩,
    ellipse := ellipse,
    label := { x := x, y := y, text := text, fill := ⟨255, 255, 255, 255⟩,
               font := font } }

/-- PIL semantics of `draw.text((x, y), text, font)` with the default anchor:
the ink bounding box of the rendered text equals the origin-anchored
`textbbox` translated by `(x, y)`. -/
def rendered_bbox (denv : DrawEnv) (icon : Icon) : BBox :=
  let b := denv.textbbox icon.label.text icon.label.font
  ⟨icon.label.x + b.x0, icon.label.y + b.y0, icon.label.x + b.x1, icon.label.y + b.y1⟩

/-- Content of an output file written during a run: either a PNG produced by
`cairosvg.svg2png(url=svg_path, write_to=output_path, output_width=size,
output_height=size)` — the backend is opaque, so only the requested raster
dimensions are recorded — or a PNG persisted from an in-memory placeholder
icon by `img.save(output_path, "PNG")`. -/
inductive FileContent where
  | vectorPng (w : Nat) (h : Nat) : FileContent
  | png (icon : Icon) : FileContent
deriving DecidableEq

/-- Decoded pixel dimensions of an output file. -/
def FileContent.dims : FileContent → Nat × Nat
  | .vectorPng w h => (w, h)
  | .png icon => (icon.width, icon.height)

/-- Console lines printed inside the per-size loop of `generate_icons`:
the vector-path success line, the vector-path failure line (printed with the
exception text), and the fallback success line. -/
inductive LogLine where
  | vectorOk (p : String) : LogLine
  | vectorFail (p : String) : LogLine
  | fallbackOk (p : String) : LogLine
deriving DecidableEq

/-- Unrecovered faults that terminate a run: reading the name
`svg_to_png_available` when it was never assigned (`NameError`), or an
exception from `img.save` outside any enclosing `try` (`OSError` etc.). -/
inductive RunError where
  | nameError : RunError
  | saveError : RunError
deriving DecidableEq

/-- Environment of one run of `generate_icons`: whether
`os.path.exists(svg_path)` is true, whether `import cairosvg` succeeds,
whether the `cairosvg.svg2png` call for a given size succeeds or raises,
whether the `img.save` call for a given size succeeds or raises, and the
font/metrics environments used by `create_fallback_icon`. -/
structure IconEnv where
  svg_exists : Bool
  cairosvg_importable : Bool
  svg2png_ok : Nat → Bool
  save_ok : Nat → Bool
  fontEnv : FontEnv
  drawEnv : DrawEnv

/-- `base_dir = "public/icons"`. -/
def base_dir : String := "public/icons"

/-- `output_path = os.path.join(base_dir, f"icon-{size}x{size}.png")`. -/
def output_path (size : Nat) : String :=
  base_dir ++ "/icon-" ++ toString size ++ "x" ++ toString size ++ ".png"

/-- The required sizes from manifest.json. -/
def sizes : List Nat := [72, 96, 128, 144, 152, 192, 384, 512]

/-- The value of the local variable `svg_to_png_available` after the
`if use_svg:` block: assigned only when the SVG source exists (`some` of
the outcome of the backend probe), and never assigned otherwise (`none`). -/
def svg_to_png_available (env : IconEnv) : Option Bool :=
  if env.svg_exists then some env.cairosvg_importable else none

/-- Evaluation of the loop condition `use_svg and svg_to_png_available`:
Python `and` short-circuits, so the (possibly unassigned) flag is read only
when `use_svg` is truthy; reading an unassigned name raises `NameError`. -/
def dispatch_cond (use_svg : Bool) (flag : Option Bool) : Except RunError Bool :=
  if use_svg then
    match flag with
    | none => Except.error RunError.nameError
    | some b => Except.ok b
  else
    Except.ok false

/-- One iteration of the per-size loop, given the already-evaluated dispatch
condition: on the vector path, try `cairosvg.svg2png` and on exception print
the failure line, build the fallback icon and save it; otherwise build the
fallback icon and save it.  Returns the files written, the lines printed, and
the error if an unhandled exception escaped the iteration. -/
def process_size (env : IconEnv) (cond : Bool) (size : Nat) :
    List (String × FileContent) × List LogLine × Option RunError :=
  let p := output_path size
  if cond then
    if env.svg2png_ok size then
      ([(p, FileContent.vectorPng size size)], [LogLine.vectorOk p], none)
    else
      let img := create_fallback_icon env.fontEnv env.drawEnv size "PC"
      if env.save_ok size then
        ([(p, FileContent.png img)], [LogLine.vectorFail p, LogLine.fallbackOk p], none)
      else
        ([], [LogLine.vectorFail p], some RunError.saveError)
  else
    let img := create_fallback_icon env.fontEnv env.drawEnv size "PC"
    if env.save_ok size then
      ([(p, FileContent.png img)], [LogLine.fallbackOk p], none)
    else
      ([], [], some RunError.saveError)

/-- The per-size loop of `generate_icons` over a list of sizes: each
iteration evaluates the dispatch condition and runs `process_size`; an error
aborts the loop, keeping the files already written and the lines already
printed. -/
def run_sizes (env : IconEnv) (flag : Option Bool) :
    List Nat → List (String × FileContent) × List LogLine × Option RunError
  | [] => ([], [], none)
  | s :: rest =>
    match dispatch_cond env.svg_exists flag with
    | Except.error e => ([], [], some e)
    | Except.ok cond =>
      let r := process_size env cond s
      match r.2.2 with
      | some e => (r.1, r.2.1, some e)
      | none =>
        let rec' := run_sizes env flag rest
        (r.1 ++ rec'.1, r.2.1 ++ rec'.2.1, rec'.2.2)

/-- Embedding of `generate_icons()`: check `os.path.exists(svg_path)` once,
probe `import cairosvg` only when the SVG exists, then loop over the fixed
size list.  The result is the list of files written (in order), the per-size
console lines, and `some` error if the run was terminated by an unrecovered
exception. -/
def generate_icons (env : IconEnv) :
    List (String × FileContent) × List LogLine × Option RunError :=
  run_sizes env (svg_to_png_available env) sizes

/-- When the dispatch condition evaluates to `false`, the loop writes the
placeholder file for each size in order until `img.save` first fails: the
files and logs are the `save_ok` prefix of the size list, and the error is
`saveError` iff some save failed. -/
theorem run_sizes_fallback (env : IconEnv) (flag : Option Bool)
    (hc : dispatch_cond env.svg_exists flag = Except.ok false) (l : List Nat) :
    run_sizes env flag l =
      ((l.takeWhile env.save_ok).map
        (fun s => (output_path s,
          FileContent.png (create_fallback_icon env.fontEnv env.drawEnv s "PC"))),
       (l.takeWhile env.save_ok).map (fun s => LogLine.fallbackOk (output_path s)),
       if l.all env.save_ok then none else some RunError.saveError) := by
  induction l with
  | nil => simp [run_sizes]
  | cons s rest ih =>
    rw [run_sizes, hc]
    by_cases hs : env.save_ok s = true
    · simp [process_size, hs, ih, List.takeWhile_cons, List.all_cons]
    · simp [process_size, hs, List.takeWhile_cons, List.all_cons]

/-- When the dispatch condition evaluates to `true` and every save succeeds,
the loop processes every size: a successful conversion writes the
backend-produced PNG and logs the success line; a failed conversion logs the
failure line, then writes and logs the placeholder fallback.  No error
escapes. -/
theorem run_sizes_vector (env : IconEnv) (flag : Option Bool)
    (hc : dispatch_cond env.svg_exists flag = Except.ok true)
    (hs : ∀ s, env.save_ok s = true) (l : List Nat) :
    run_sizes env flag l =
      (l.map (fun s => (output_path s,
          if env.svg2png_ok s then FileContent.vectorPng s s
          else FileContent.png (create_fallback_icon env.fontEnv env.drawEnv s "PC"))),
       l.flatMap (fun s =>
          if env.svg2png_ok s then [LogLine.vectorOk (output_path s)]
          else [LogLine.vectorFail (output_path s), LogLine.fallbackOk (output_path s)]),
       none) := by
  induction l with
  | nil => simp [run_sizes]
  | cons s rest ih =>
    rw [run_sizes, hc]
    by_cases hv : env.svg2png_ok s = true
    · simp [process_size, hv, hs s, ih]
    · simp [process_size, hv, hs s, ih]

/-- Every file written by one loop iteration is at the deterministic output
path for that size and has decoded dimensions exactly size by size. -/
theorem process_size_files (env : IconEnv) (cond : Bool) (s : Nat) :
    ∀ p fc, (p, fc) ∈ (process_size env cond s).1 →
      p = output_path s ∧ fc.dims = (s, s) := by
  intro p fc h
  cases cond <;> rcases hv : env.svg2png_ok s <;> rcases hw : env.save_ok s <;>
    simp_all [process_size, FileContent.dims, create_fallback_icon]

/-- Every file written by the loop over a size list is at the output path of
one of those sizes and has decoded dimensions exactly that size squared. -/
theorem run_sizes_files (env : IconEnv) (flag : Option Bool) (l : List Nat) :
    ∀ p fc, (p, fc) ∈ (run_sizes env flag l).1 →
      ∃ s ∈ l, p = output_path s ∧ fc.dims = (s, s) := by
  induction l with
  | nil => intro p fc h; simp [run_sizes] at h
  | cons s rest ih =>
    intro p fc h
    rw [run_sizes] at h
    cases hd : dispatch_cond env.svg_exists flag with
    | error e => rw [hd] at h; simp at h
    | ok cond =>
      rw [hd] at h
      cases he : (process_size env cond s).2.2 with
      | some e =>
        simp only [he] at h
        obtain ⟨hp, hdim⟩ := process_size_files env cond s p fc h
        exact ⟨s, by simp, hp, hdim⟩
      | none =>
        simp only [he, List.mem_append] at h
        cases h with
        | inl h =>
          obtain ⟨hp, hdim⟩ := process_size_files env cond s p fc h
          exact ⟨s, by simp, hp, hdim⟩
        | inr h =>
          obtain ⟨t, ht, hp, hdim⟩ := ih p fc h
          exact ⟨t, by simp [ht], hp, hdim⟩

/-- C7: the font chain tries the bundled DejaVuSans-Bold path first, tries
`"arial.ttf"` only if that attempt raised, reaches the built-in default only
if both raised, and its result is the first success — with
`ImageFont.load_default()` as the terminal step, which cannot fail, so
`load_font` is total: font selection never fails for any target size. -/
theorem C7_font_fallback_chain (env : FontEnv) (font_size : Nat) :
    (load_font_attempts env font_size).1 = load_font env font_size ∧
    (load_font_attempts env font_size).2.head? = some FontAttempt.dejavu ∧
    (FontAttempt.arial ∈ (load_font_attempts env font_size).2 ↔
      env.truetype dejavu_bold font_size = none) ∧
    (FontAttempt.builtin ∈ (load_font_attempts env font_size).2 ↔
      (env.truetype dejavu_bold font_size = none ∧
       env.truetype "arial.ttf" font_size = none)) ∧
    load_font env font_size =
      (env.truetype dejavu_bold font_size).getD
        ((env.truetype "arial.ttf" font_size).getD Font.builtinDefault) := by
  cases h1 : env.truetype dejavu_bold font_size <;>
    cases h2 : env.truetype "arial.ttf" font_size <;>
    simp [load_font, load_font_attempts, h1, h2]

/-- A font environment in which no truetype font can be loaded, so the chain
falls through to the built-in default. -/
def noFonts : FontEnv := ⟨fun _ _ => none⟩

/-- A metrics environment whose measured bounding box at the origin is
(0, 10, 30, 40): a font whose ink starts 10 pixels below the anchor — a
typical nonzero top offset.  The box is 30 wide and 30 tall. -/
def offsetMetrics : DrawEnv := ⟨fun _ _ => ⟨0, 10, 30, 40⟩⟩

/-- C5 (code bug): with the bbox top offset of 10 above and size 72, the
code computes `y = (72 - 30) // 2 = 21` and draws at that anchor, so the
rendered ink spans rows 31..61 — its vertical center is 46, not the image
center 36 (stated below with doubled centers to stay in integers: the sum of
top and bottom is 92, not 72).  The horizontal center is exact here because
the left offset is 0, confirming that the discrepancy is precisely the
unsubtracted bbox offset: the code's own intent (`# Center text`) and the
claim require the offset to be subtracted, and it is not. -/
theorem C5_centering_off_by_bbox_offset :
    (rendered_bbox offsetMetrics (create_fallback_icon noFonts offsetMetrics 72 "PC")).y0 +
      (rendered_bbox offsetMetrics (create_fallback_icon noFonts offsetMetrics 72 "PC")).y1 = 92 ∧
    (rendered_bbox offsetMetrics (create_fallback_icon noFonts offsetMetrics 72 "PC")).y0 +
      (rendered_bbox offsetMetrics (create_fallback_icon noFonts offsetMetrics 72 "PC")).y1 ≠ 72 ∧
    (rendered_bbox offsetMetrics (create_fallback_icon noFonts offsetMetrics 72 "PC")).x0 +
      (rendered_bbox offsetMetrics (create_fallback_icon noFonts offsetMetrics 72 "PC")).x1 = 72 := by
  refine ⟨?_, ?_, ?_⟩ <;> decide

/-- C4: for every positive target size (and any font/metrics environment and
label), the placeholder synthesizer returns a square image of exactly
size by size pixels with a fully transparent background, containing a filled
circle with margin size/8 on each side, outline stroke width size/16, and the
fixed fill (15, 23, 42, 255) and outline (59, 130, 246, 255) colors; and in
every run, each persisted output file sits at `icon-<s>x<s>.png` for one of
the required sizes s and has decoded pixel dimensions exactly s by s. -/
theorem C4_fallback_icon_geometry (fenv : FontEnv) (denv : DrawEnv)
    (size : Nat) (text : String) (env : IconEnv) (hpos : 0 < size) :
    (create_fallback_icon fenv denv size text).width = size ∧
    (create_fallback_icon fenv denv size text).height = size ∧
    (create_fallback_icon fenv denv size text).background = ⟨0, 0, 0, 0⟩ ∧
    (create_fallback_icon fenv denv size text).ellipse.x0 = size / 8 ∧
    (create_fallback_icon fenv denv size text).ellipse.y0 = size / 8 ∧
    (create_fallback_icon fenv denv size text).ellipse.x1 = size - size / 8 ∧
    (create_fallback_icon fenv denv size text).ellipse.y1 = size - size / 8 ∧
    (create_fallback_icon fenv denv size text).ellipse.strokeWidth = size / 16 ∧
    (create_fallback_icon fenv denv size text).ellipse.fill = ⟨15, 23, 42, 255⟩ ∧
    (create_fallback_icon fenv denv size text).ellipse.outline = ⟨59, 130, 246, 255⟩ ∧
    (∀ p fc, (p, fc) ∈ (generate_icons env).1 →
      ∃ s ∈ sizes, p = output_path s ∧ FileContent.dims fc = (s, s)) := by
  refine ⟨rfl, rfl, rfl, rfl, rfl, rfl, rfl, rfl, rfl, rfl, ?_⟩
  intro p fc h
  exact run_sizes_files env (svg_to_png_available env) sizes p fc h

/-- A metrics environment with an offset-free 30 by 30 bounding box. -/
def flatMetrics : DrawEnv := ⟨fun _ _ => ⟨0, 0, 30, 30⟩⟩

/-- A run environment with no SVG source present and a filesystem on which
every save succeeds. -/
def noSvgEnv : IconEnv :=
  { svg_exists := false, cairosvg_importable := false,
    svg2png_ok := fun _ => true, save_ok := fun _ => true,
    fontEnv := noFonts, drawEnv := flatMetrics }

/-- Witness for C4 at size 72 with concrete environments. -/
theorem C4_fallback_icon_geometry_witness :
    0 < 72 ∧
    ((create_fallback_icon noFonts flatMetrics 72 "PC").width = 72 ∧
     (create_fallback_icon noFonts flatMetrics 72 "PC").height = 72 ∧
     (create_fallback_icon noFonts flatMetrics 72 "PC").background = ⟨0, 0, 0, 0⟩ ∧
     (create_fallback_icon noFonts flatMetrics 72 "PC").ellipse.x0 = 72 / 8 ∧
     (create_fallback_icon noFonts flatMetrics 72 "PC").ellipse.y0 = 72 / 8 ∧
     (create_fallback_icon noFonts flatMetrics 72 "PC").ellipse.x1 = 72 - 72 / 8 ∧
     (create_fallback_icon noFonts flatMetrics 72 "PC").ellipse.y1 = 72 - 72 / 8 ∧
     (create_fallback_icon noFonts flatMetrics 72 "PC").ellipse.strokeWidth = 72 / 16 ∧
     (create_fallback_icon noFonts flatMetrics 72 "PC").ellipse.fill = ⟨15, 23, 42, 255⟩ ∧
     (create_fallback_icon noFonts flatMetrics 72 "PC").ellipse.outline = ⟨59, 130, 246, 255⟩ ∧
     (∀ p fc, (p, fc) ∈ (generate_icons noSvgEnv).1 →
       ∃ s ∈ sizes, p = output_path s ∧ FileContent.dims fc = (s, s))) :=
  ⟨by decide, C4_fallback_icon_geometry noFonts flatMetrics 72 "PC" noSvgEnv (by decide)⟩

/-- C1: in a run that takes the vector path (SVG present, backend
importable) on a working filesystem, the run completes with no unrecovered
error, the files written are exactly the 8 output paths of the full size
list in order, and every size whose conversion attempt raises gets the
placeholder bitmap substituted for that size only, with a failure line
logged — the batch is never aborted by a per-size conversion failure. -/
theorem C1_per_size_failure_recovery (env : IconEnv)
    (hsvg : env.svg_exists = true) (himp : env.cairosvg_importable = true)
    (hsave : ∀ s, env.save_ok s = true) :
    (generate_icons env).2.2 = none ∧
    (generate_icons env).1.map Prod.fst = sizes.map output_path ∧
    (∀ s ∈ sizes, env.svg2png_ok s = false →
      (output_path s,
        FileContent.png (create_fallback_icon env.fontEnv env.drawEnv s "PC"))
        ∈ (generate_icons env).1 ∧
      LogLine.vectorFail (output_path s) ∈ (generate_icons env).2.1) := by
  have hc : dispatch_cond env.svg_exists (svg_to_png_available env) = Except.ok true := by
    simp [dispatch_cond, svg_to_png_available, hsvg, himp]
  rw [generate_icons, run_sizes_vector env _ hc hsave]
  refine ⟨rfl, by simp, ?_⟩
  intro s hs hfail
  constructor
  · exact List.mem_map.mpr ⟨s, hs, by simp [hfail]⟩
  · exact List.mem_flatMap.mpr ⟨s, hs, by simp [hfail]⟩

/-- A run environment on the vector path in which conversion raises for size
128 only. -/
def vecFail128Env : IconEnv :=
  { svg_exists := true, cairosvg_importable := true,
    svg2png_ok := fun s => !(s == 128), save_ok := fun _ => true,
    fontEnv := noFonts, drawEnv := flatMetrics }

/-- Witness for C1 in a run whose conversion fails exactly at size 128. -/
theorem C1_per_size_failure_recovery_witness :
    vecFail128Env.svg_exists = true ∧
    vecFail128Env.cairosvg_importable = true ∧
    (∀ s, vecFail128Env.save_ok s = true) ∧
    ((generate_icons vecFail128Env).2.2 = none ∧
     (generate_icons vecFail128Env).1.map Prod.fst = sizes.map output_path ∧
     (∀ s ∈ sizes, vecFail128Env.svg2png_ok s = false →
       (output_path s,
         FileContent.png
           (create_fallback_icon vecFail128Env.fontEnv vecFail128Env.drawEnv s "PC"))
         ∈ (generate_icons vecFail128Env).1 ∧
       LogLine.vectorFail (output_path s) ∈ (generate_icons vecFail128Env).2.1)) :=
  ⟨rfl, rfl, fun _ => rfl,
   C1_per_size_failure_recovery vecFail128Env rfl rfl (fun _ => rfl)⟩

/-- C6: a run with no vector source and a run with a vector source but an
unimportable rasterization backend are indistinguishable, given the same
font, metrics and filesystem environments: identical files written,
identical per-size log lines, identical termination status — both sides
take the placeholder path with the same arguments for every size. -/
theorem C6_no_svg_equals_no_backend (env1 env2 : IconEnv)
    (h1 : env1.svg_exists = false)
    (h2 : env2.svg_exists = true) (h2i : env2.cairosvg_importable = false)
    (hf : env1.fontEnv = env2.fontEnv) (hd : env1.drawEnv = env2.drawEnv)
    (hs : env1.save_ok = env2.save_ok) :
    generate_icons env1 = generate_icons env2 := by
  have c1 : dispatch_cond env1.svg_exists (svg_to_png_available env1) = Except.ok false := by
    simp [dispatch_cond, svg_to_png_available, h1]
  have c2 : dispatch_cond env2.svg_exists (svg_to_png_available env2) = Except.ok false := by
    simp [dispatch_cond, svg_to_png_available, h2, h2i]
  rw [generate_icons, generate_icons, run_sizes_fallback env1 _ c1 sizes,
    run_sizes_fallback env2 _ c2 sizes, hf, hd, hs]

/-- A run environment with an SVG source present but `import cairosvg`
failing, sharing `noSvgEnv`'s font, metrics and filesystem environments. -/
def svgNoBackendEnv : IconEnv :=
  { svg_exists := true, cairosvg_importable := false,
    svg2png_ok := fun _ => true, save_ok := fun _ => true,
    fontEnv := noFonts, drawEnv := flatMetrics }

/-- Witness for C6 on the two concrete environments. -/
theorem C6_no_svg_equals_no_backend_witness :
    noSvgEnv.svg_exists = false ∧
    svgNoBackendEnv.svg_exists = true ∧
    svgNoBackendEnv.cairosvg_importable = false ∧
    generate_icons noSvgEnv = generate_icons svgNoBackendEnv :=
  ⟨rfl, rfl, rfl,
   C6_no_svg_equals_no_backend noSvgEnv svgNoBackendEnv rfl rfl rfl rfl rfl rfl⟩

/-- C8: a filesystem failure while persisting a placeholder image is handled
nowhere: the run terminates with the unrecovered save exception, and the
files on disk are exactly those of the sizes processed before the first
failing save — earlier outputs are left in place and nothing is rolled
back. -/
theorem C8_save_failure_propagates (env : IconEnv)
    (h1 : env.svg_exists = false)
    (hfail : ¬ sizes.all env.save_ok = true) :
    (generate_icons env).2.2 = some RunError.saveError ∧
    (generate_icons env).1 =
      (sizes.takeWhile env.save_ok).map
        (fun s => (output_path s,
          FileContent.png (create_fallback_icon env.fontEnv env.drawEnv s "PC"))) := by
  have hc : dispatch_cond env.svg_exists (svg_to_png_available env) = Except.ok false := by
    simp [dispatch_cond, svg_to_png_available, h1]
  rw [generate_icons, run_sizes_fallback env _ hc sizes]
  simp [hfail]

/-- A run environment with no SVG source in which `img.save` raises for size
152 and every later size, after the files for 72, 96, 128 and 144 have been
written. -/
def saveFail152Env : IconEnv :=
  { svg_exists := false, cairosvg_importable := false,
    svg2png_ok := fun _ => true, save_ok := fun s => s < 150,
    fontEnv := noFonts, drawEnv := flatMetrics }

/-- Witness for C8 on a run whose save first fails at size 152. -/
theorem C8_save_failure_propagates_witness :
    saveFail152Env.svg_exists = false ∧
    ¬ sizes.all saveFail152Env.save_ok = true ∧
    ((generate_icons saveFail152Env).2.2 = some RunError.saveError ∧
     (generate_icons saveFail152Env).1 =
       (sizes.takeWhile saveFail152Env.save_ok).map
         (fun s => (output_path s,
           FileContent.png
             (create_fallback_icon saveFail152Env.fontEnv saveFail152Env.drawEnv s "PC")))) :=
  ⟨rfl, by decide, C8_save_failure_propagates saveFail152Env rfl (by decide)⟩

/-- C9: when the vector source does not exist, `svg_to_png_available` is
never assigned, yet the short-circuiting dispatch condition never reads it:
the condition evaluates to false without raising `NameError`, the run never
terminates with a `NameError`, and every file written comes from the
placeholder path. -/
theorem C9_no_svg_short_circuit (env : IconEnv) (h1 : env.svg_exists = false) :
    svg_to_png_available env = none ∧
    dispatch_cond env.svg_exists (svg_to_png_available env) = Except.ok false ∧
    (generate_icons env).2.2 ≠ some RunError.nameError ∧
    (∀ p fc, (p, fc) ∈ (generate_icons env).1 →
      ∃ s ∈ sizes,
        fc = FileContent.png (create_fallback_icon env.fontEnv env.drawEnv s "PC")) := by
  have hflag : svg_to_png_available env = none := by
    simp [svg_to_png_available, h1]
  have hc : dispatch_cond env.svg_exists (svg_to_png_available env) = Except.ok false := by
    simp [dispatch_cond, svg_to_png_available, h1]
  refine ⟨hflag, hc, ?_, ?_⟩
  · rw [generate_icons, run_sizes_fallback env _ hc sizes]
    by_cases hall : sizes.all env.save_ok = true <;> simp [hall]
  · intro p fc h
    rw [generate_icons, run_sizes_fallback env _ hc sizes] at h
    obtain ⟨s, hs, heq⟩ := List.mem_map.mp h
    refine ⟨s, (List.takeWhile_sublist env.save_ok).subset hs, ?_⟩
    exact ((Prod.mk.injEq _ _ _ _).mp heq).2.symm

/-- Witness for C9 on the concrete no-SVG environment. -/
theorem C9_no_svg_short_circuit_witness :
    noSvgEnv.svg_exists = false ∧
    (svg_to_png_available noSvgEnv = none ∧
     dispatch_cond noSvgEnv.svg_exists (svg_to_png_available noSvgEnv) = Except.ok false ∧
     (generate_icons noSvgEnv).2.2 ≠ some RunError.nameError ∧
     (∀ p fc, (p, fc) ∈ (generate_icons noSvgEnv).1 →
       ∃ s ∈ sizes,
         fc = FileContent.png
           (create_fallback_icon noSvgEnv.fontEnv noSvgEnv.drawEnv s "PC"))) :=
  ⟨rfl, C9_no_svg_short_circuit noSvgEnv rfl⟩
